import Mathlib

/-!
Verification development for the Lighter connector
(`src/utils/connectors/lighter/lighter_connector.py` together with the data
types of `src/utils/connectors/base_connector.py`).

Numbers handled by the Python code as decimal values are modelled as exact
rationals (`ℚ`); machine strings that only serve as sentinels are kept as
`String`.  Each definition below is a direct transcription of the Python
function it is named after; side effects (HTTP calls, the signing SDK, the
polling clock) are made explicit as function arguments or environment
records.
-/

/-- `OrderSide` enum of `base_connector.py`. -/
inductive OrderSide where
  | BUY
  | SELL
  deriving DecidableEq, Repr

/-- `OrderType` enum of `base_connector.py`. -/
inductive OrderType where
  | MARKET
  | LIMIT
  | STOP_LOSS
  | TAKE_PROFIT
  deriving DecidableEq, Repr

/-- `OrderStatus` enum of `base_connector.py` (`PENDING`, `FILLED`, `PARTIAL`). -/
inductive OrderStatus where
  | PENDING
  | FILLED
  | PARTIAL_FILL
  deriving DecidableEq, Repr

/-- The `Order` dataclass of `base_connector.py`.  `price` is declared there as
`Optional[float]`; the `timestamp` field (wall clock) is outside the model. -/
structure Order where
  id : String
  symbol : String
  side : OrderSide
  type : OrderType
  size : ℚ
  price : Option ℚ
  status : OrderStatus
  deriving DecidableEq, Repr

/-- The `Position` dataclass of `base_connector.py` (without the wall-clock
`timestamp` field). -/
structure Position where
  symbol : String
  side : OrderSide
  size : ℚ
  entry_price : ℚ
  current_price : ℚ
  unrealized_pnl : ℚ
  leverage : ℚ
  deriving DecidableEq, Repr

/-- Python's `int(q)` applied to a real number: truncation toward zero
(`math.floor` for nonnegative arguments, `math.ceil` for negative ones). -/
def pyInt (q : ℚ) : ℤ :=
  if 0 ≤ q then ⌊q⌋ else ⌈q⌉

/-- The connector's market caches (`self._symbol_to_market_id_cache`,
`self._market_size_decimals`, `self._market_price_decimals`,
`self._market_min_base_amounts`), each a dictionary modelled as a partial
map. -/
structure MarketCache where
  symbol_to_market_id : String → Option ℕ
  size_decimals : ℕ → Option ℕ
  price_decimals : ℕ → Option ℕ
  min_base_amounts : ℕ → Option ℚ

/-- `_convert_size_to_lighter_format` (lines 417-423):
`int(size * (10 ** size_decimal))`, where `size_decimal` is the cached entry
`self._market_size_decimals[market_id]`; a missing entry raises `KeyError`,
modelled as `none`. -/
def convert_size_to_lighter_format (st : MarketCache) (size : ℚ) (market_id : ℕ) :
    Option ℤ :=
  (st.size_decimals market_id).map fun size_decimal => pyInt (size * 10 ^ size_decimal)

/-- `_convert_price_to_lighter_format` (lines 425-431):
`int(price * (10 ** price_decimal))` with the cached
`self._market_price_decimals[market_id]`. -/
def convert_price_to_lighter_format (st : MarketCache) (price : ℚ) (market_id : ℕ) :
    Option ℤ :=
  (st.price_decimals market_id).map fun price_decimal => pyInt (price * 10 ^ price_decimal)

/-- The JSON body returned by `GET /api/v1/orderbook-meta`; a field the remote
response does not contain is `none` (Python raises `KeyError` on it). -/
structure MetaResponse where
  size_decimals : Option ℕ
  price_decimals : Option ℕ
  min_base_amount : Option ℚ
  deriving Repr

/-- Error taxonomy of the connector, modelling the `Exception`s raised in
`lighter_connector.py` (every raise site re-wraps into `Exception`; the
constructors name the distinct failure messages). -/
inductive ConnectorError where
  | tradingNotEnabled
  | unknownSymbol
  | metadataError
  | noPrice
  | orderFailed
  | keyError
  | fillTimeout (tx_hash : String) (timeout : ℚ)
  deriving DecidableEq, Repr

/-- The guard of `_ensure_market_data` (line 394): all three per-market
dictionaries already hold `market_id`. -/
def cachedAll (st : MarketCache) (market_id : ℕ) : Bool :=
  (st.size_decimals market_id).isSome && (st.price_decimals market_id).isSome &&
    (st.min_base_amounts market_id).isSome

/-- `_ensure_market_data` (lines 389-415).  If all three fields are cached the
call returns at once.  Otherwise the remote metadata is read and the three
dictionary entries are assigned in source order (size, price, min); a field
missing from the response raises `KeyError` at its own assignment, which the
surrounding `except` re-raises as an error — but the assignments already
executed keep their effect on the cache.  The result is the post-call cache
together with the error, if any. -/
def ensure_market_data (st : MarketCache) (market_id : ℕ) (resp : MetaResponse) :
    MarketCache × Option ConnectorError :=
  if cachedAll st market_id then (st, none)
  else
    match resp.size_decimals with
    | none => (st, some ConnectorError.metadataError)
    | some sd =>
      let st1 : MarketCache :=
        { st with size_decimals := Function.update st.size_decimals market_id (some sd) }
      match resp.price_decimals with
      | none => (st1, some ConnectorError.metadataError)
      | some pd =>
        let st2 : MarketCache :=
          { st1 with price_decimals := Function.update st1.price_decimals market_id (some pd) }
        match resp.min_base_amount with
        | none => (st2, some ConnectorError.metadataError)
        | some mb =>
          ({ st2 with
              min_base_amounts := Function.update st2.min_base_amounts market_id (some mb) },
            none)

/-- The idiom `slippage = slippage or 0.01` shared by all four order
operations (lines 452, 534, 602, 685): Python's `or` replaces both `None`
and the falsy value `0.0` by the default `0.01`. -/
def resolve_slippage (slippage : Option ℚ) : ℚ :=
  match slippage with
  | none => 0.01
  | some x => if x = 0 then 0.01 else x

/-- Argument record of `signer_client.create_market_order` as invoked by the
four order operations (`client_order_index` is the constant 0 everywhere and
is omitted). -/
structure MarketOrderArgs where
  market_index : ℕ
  base_amount : ℤ
  avg_execution_price : ℤ
  is_ask : Bool
  reduce_only : Bool
  deriving DecidableEq, Repr

/-- Slippage/encoding stage of `place_market_buy_order` (lines 451-468):
worst price `current_price * (1 + slippage)`, size and worst price encoded
through the two conversion helpers, submitted with `is_ask=False` and no
reduce-only flag.  `none` models the `KeyError` of a missing decimals cache
entry. -/
def place_market_buy_args (st : MarketCache) (market_id : ℕ) (size : ℚ)
    (slippage : Option ℚ) (current_price : ℚ) : Option MarketOrderArgs :=
  let slip := resolve_slippage slippage
  let worst_price := current_price * (1 + slip)
  match convert_size_to_lighter_format st size market_id,
      convert_price_to_lighter_format st worst_price market_id with
  | some base_amount, some avg_execution_price =>
    some ⟨market_id, base_amount, avg_execution_price, false, false⟩
  | _, _ => none

/-- Slippage/encoding stage of `place_market_sell_order` (lines 533-550):
worst price `current_price * (1 - slippage)`, `is_ask=True`, no reduce-only
flag. -/
def place_market_sell_args (st : MarketCache) (market_id : ℕ) (size : ℚ)
    (slippage : Option ℚ) (current_price : ℚ) : Option MarketOrderArgs :=
  let slip := resolve_slippage slippage
  let worst_price := current_price * (1 - slip)
  match convert_size_to_lighter_format st size market_id,
      convert_price_to_lighter_format st worst_price market_id with
  | some base_amount, some avg_execution_price =>
    some ⟨market_id, base_amount, avg_execution_price, true, false⟩
  | _, _ => none

/-- Slippage/encoding stage of `close_buy_position` (lines 601-619): sell to
close a long, worst price `current_price * (1 - slippage)`, `is_ask=True`,
`reduce_only=True`. -/
def close_buy_args (st : MarketCache) (market_id : ℕ) (size : ℚ)
    (slippage : Option ℚ) (current_price : ℚ) : Option MarketOrderArgs :=
  let slip := resolve_slippage slippage
  let worst_price := current_price * (1 - slip)
  match convert_size_to_lighter_format st size market_id,
      convert_price_to_lighter_format st worst_price market_id with
  | some base_amount, some avg_execution_price =>
    some ⟨market_id, base_amount, avg_execution_price, true, true⟩
  | _, _ => none

/-- Slippage/encoding stage of `close_sell_position` (lines 684-702): buy to
close a short, worst price `current_price * (1 + slippage)`, `is_ask=False`,
`reduce_only=True`. -/
def close_sell_args (st : MarketCache) (market_id : ℕ) (size : ℚ)
    (slippage : Option ℚ) (current_price : ℚ) : Option MarketOrderArgs :=
  let slip := resolve_slippage slippage
  let worst_price := current_price * (1 + slip)
  match convert_size_to_lighter_format st size market_id,
      convert_price_to_lighter_format st worst_price market_id with
  | some base_amount, some avg_execution_price =>
    some ⟨market_id, base_amount, avg_execution_price, false, true⟩
  | _, _ => none

/-- Concrete cache used for the spec's worked examples: every symbol resolves
to market 0, whose cached decimals are `size_decimals=4`, `price_decimals=2`,
`min_base_amount=1`. -/
def exampleCache : MarketCache :=
  ⟨fun _ => some 0, fun _ => some 4, fun _ => some 2, fun _ => some 1⟩

/-- Outcome of `json.loads(tx_data.get('event_info', '{}'))` followed by the
`.get` chain of lines 769-772: either the parse succeeds and yields the raw
integers `t.p` and `t.s` (a missing `t`, `p` or `s` defaults to 0 via
`.get`), or `json.loads` raises `JSONDecodeError`. -/
inductive EventInfoParse where
  | parsed (p s : ℚ)
  | parse_failure
  deriving DecidableEq, Repr

/-- The `actual_price` / `actual_size` payload of the dictionary
`_wait_for_fill` returns on settlement (the remaining keys — `status`,
`tx_hash`, `block_height`, `executed_at`, `tx_data` — are either constant or
unused by the callers). -/
structure FillData where
  actual_price : Option ℚ
  actual_size : ℚ
  deriving DecidableEq, Repr

/-- One poll of `GET /api/v1/tx`: either an HTTP response with its status
code, the transaction `status` field of the JSON body (absent fields are
`none`) and the parse of `event_info`, or a raised transport error
(`requests.get` throwing). -/
inductive PollResponse where
  | http (status_code : ℕ) (tx_status : Option ℤ) (ev : EventInfoParse)
  | transport_error
  deriving DecidableEq, Repr

/-- Result of `_wait_for_fill`: the settlement dictionary, or the timeout
exception of line 820 (carrying the transaction hash and the timeout). -/
inductive FillOutcome where
  | filled (d : FillData)
  | timedOut (tx_hash : String) (timeout : ℚ)
  deriving DecidableEq, Repr

/-- Body of one iteration of the polling loop of `_wait_for_fill`
(lines 748-817).  `some d` means the iteration returned the settlement
dictionary (HTTP 200 with `status == 3`, lines 763-791); every other case —
`status == 2`, `status > 3` (whose `raise` at line 799 is caught by the
function's own `except` at line 816 and merely slept through), any other
status, HTTP 404, any other HTTP code, and a raised transport error — falls
through to the sleep and continues polling. -/
def pollStep (r : PollResponse) (expected_size : ℚ) : Option FillData :=
  match r with
  | PollResponse.http status_code tx_status ev =>
    if status_code = 200 then
      match tx_status with
      | some 3 =>
        match ev with
        | EventInfoParse.parsed p s =>
          let actual_price := p / 100
          let actual_size := s / 10000
          some ⟨if actual_price > 0 then some actual_price else none,
                if actual_size > 0 then actual_size else expected_size⟩
        | EventInfoParse.parse_failure =>
          some ⟨none, expected_size⟩
      | some 2 => none
      | some st => if st > 3 then none else none
      | none => none
    else if status_code = 404 then none
    else none
  | PollResponse.transport_error => none

/-- Fuel-indexed unfolding of the `while time.time() - start_time < timeout`
loop of `_wait_for_fill`: iteration `i` runs at elapsed time
`i * poll_interval` (each iteration ends in `asyncio.sleep(poll_interval)`;
request latency is abstracted to zero), and the loop body is `pollStep`.
The fuel-exhausted default coincides with the timeout outcome and is never
reached for the fuel chosen in `wait_for_fill`. -/
def wait_go (resp : ℕ → PollResponse) (tx_hash : String)
    (expected_size timeout poll_interval : ℚ) : ℕ → ℕ → FillOutcome
  | 0, _ => FillOutcome.timedOut tx_hash timeout
  | fuel + 1, i =>
    if (i : ℚ) * poll_interval < timeout then
      match pollStep (resp i) expected_size with
      | some d => FillOutcome.filled d
      | none => wait_go resp tx_hash expected_size timeout poll_interval fuel (i + 1)
    else FillOutcome.timedOut tx_hash timeout

/-- `_wait_for_fill` (lines 737-820) for a given stream of poll responses:
poll until a terminal settlement or until the elapsed time is no longer
below `timeout`, then raise the timeout exception of line 820. -/
def wait_for_fill (resp : ℕ → PollResponse) (tx_hash : String)
    (expected_size timeout poll_interval : ℚ) : FillOutcome :=
  wait_go resp tx_hash expected_size timeout poll_interval
    (⌈timeout / poll_interval⌉₊ + 1) 0

/-- The effectful environment one order operation runs in: whether
`setup_trading` succeeded (`self.signer_client` set), the body the
orderbook-meta endpoint would return if `_ensure_market_data` needs it, the
mid price `get_current_price` produces (`none` models its failure), whether
`create_market_order` reported `err`, the transaction hash extractable from
its response (`none` models the `"unknown"` sentinel path), and the outcome
the `_wait_for_fill` call would have. -/
structure OpEnv where
  trading_enabled : Bool
  meta_response : MetaResponse
  price_result : Option ℚ
  submit_err : Bool
  response_tx_hash : Option String
  fill : FillOutcome

/-- `place_market_buy_order` (lines 433-513).  Returns the
`create_market_order` argument record, the assembled `Order`, and whether
`_wait_for_fill` was invoked.  On settlement the order takes the fill's
`actual_price` / `actual_size` (note `fill_result.get('actual_price',
current_price)` returns the stored `None` when settlement parsing yielded no
price, since the key is always present); with no obtainable transaction hash
the order records the estimate with id `"unknown"`. -/
def place_market_buy_order (cache : MarketCache) (symbol : String) (size : ℚ)
    (slippage : Option ℚ) (env : OpEnv) :
    Except ConnectorError (MarketOrderArgs × Order × Bool) :=
  if env.trading_enabled = false then Except.error ConnectorError.tradingNotEnabled
  else
    match cache.symbol_to_market_id symbol with
    | none => Except.error ConnectorError.unknownSymbol
    | some market_id =>
      match ensure_market_data cache market_id env.meta_response with
      | (_, some e) => Except.error e
      | (cache1, none) =>
        match env.price_result with
        | none => Except.error ConnectorError.noPrice
        | some current_price =>
          match place_market_buy_args cache1 market_id size slippage current_price with
          | none => Except.error ConnectorError.keyError
          | some args =>
            if env.submit_err then Except.error ConnectorError.orderFailed
            else
              match env.response_tx_hash with
              | some tx =>
                match env.fill with
                | FillOutcome.timedOut t tmo =>
                  Except.error (ConnectorError.fillTimeout t tmo)
                | FillOutcome.filled d =>
                  Except.ok (args,
                    ⟨tx, symbol, OrderSide.BUY, OrderType.MARKET,
                      d.actual_size, d.actual_price, OrderStatus.FILLED⟩, true)
              | none =>
                Except.ok (args,
                  ⟨"unknown", symbol, OrderSide.BUY, OrderType.MARKET,
                    size, some current_price, OrderStatus.FILLED⟩, false)

/-- `place_market_sell_order` (lines 515-581).  The transaction hash is
extracted from the response but `_wait_for_fill` is never invoked: the order
always records the submitted `size` and the pre-trade `current_price`
estimate (line 571), whatever the fill oracle would say. -/
def place_market_sell_order (cache : MarketCache) (symbol : String) (size : ℚ)
    (slippage : Option ℚ) (env : OpEnv) :
    Except ConnectorError (MarketOrderArgs × Order × Bool) :=
  if env.trading_enabled = false then Except.error ConnectorError.tradingNotEnabled
  else
    match cache.symbol_to_market_id symbol with
    | none => Except.error ConnectorError.unknownSymbol
    | some market_id =>
      match ensure_market_data cache market_id env.meta_response with
      | (_, some e) => Except.error e
      | (cache1, none) =>
        match env.price_result with
        | none => Except.error ConnectorError.noPrice
        | some current_price =>
          match place_market_sell_args cache1 market_id size slippage current_price with
          | none => Except.error ConnectorError.keyError
          | some args =>
            if env.submit_err then Except.error ConnectorError.orderFailed
            else
              let tx : String :=
                match env.response_tx_hash with
                | some tx => tx
                | none => "unknown"
              Except.ok (args,
                ⟨tx, symbol, OrderSide.SELL, OrderType.MARKET,
                  size, some current_price, OrderStatus.FILLED⟩, false)

/-- `close_buy_position` (lines 583-664): sell with `reduce_only=True`; like
the market buy it awaits `_wait_for_fill` when a transaction hash is
obtainable. -/
def close_buy_position (cache : MarketCache) (symbol : String) (size : ℚ)
    (slippage : Option ℚ) (env : OpEnv) :
    Except ConnectorError (MarketOrderArgs × Order × Bool) :=
  if env.trading_enabled = false then Except.error ConnectorError.tradingNotEnabled
  else
    match cache.symbol_to_market_id symbol with
    | none => Except.error ConnectorError.unknownSymbol
    | some market_id =>
      match ensure_market_data cache market_id env.meta_response with
      | (_, some e) => Except.error e
      | (cache1, none) =>
        match env.price_result with
        | none => Except.error ConnectorError.noPrice
        | some current_price =>
          match close_buy_args cache1 market_id size slippage current_price with
          | none => Except.error ConnectorError.keyError
          | some args =>
            if env.submit_err then Except.error ConnectorError.orderFailed
            else
              match env.response_tx_hash with
              | some tx =>
                match env.fill with
                | FillOutcome.timedOut t tmo =>
                  Except.error (ConnectorError.fillTimeout t tmo)
                | FillOutcome.filled d =>
                  Except.ok (args,
                    ⟨tx, symbol, OrderSide.SELL, OrderType.MARKET,
                      d.actual_size, d.actual_price, OrderStatus.FILLED⟩, true)
              | none =>
                Except.ok (args,
                  ⟨"unknown", symbol, OrderSide.SELL, OrderType.MARKET,
                    size, some current_price, OrderStatus.FILLED⟩, false)

/-- `close_sell_position` (lines 666-733): buy with `reduce_only=True`; like
the market sell it never invokes `_wait_for_fill` and always records the
estimate (line 723). -/
def close_sell_position (cache : MarketCache) (symbol : String) (size : ℚ)
    (slippage : Option ℚ) (env : OpEnv) :
    Except ConnectorError (MarketOrderArgs × Order × Bool) :=
  if env.trading_enabled = false then Except.error ConnectorError.tradingNotEnabled
  else
    match cache.symbol_to_market_id symbol with
    | none => Except.error ConnectorError.unknownSymbol
    | some market_id =>
      match ensure_market_data cache market_id env.meta_response with
      | (_, some e) => Except.error e
      | (cache1, none) =>
        match env.price_result with
        | none => Except.error ConnectorError.noPrice
        | some current_price =>
          match close_sell_args cache1 market_id size slippage current_price with
          | none => Except.error ConnectorError.keyError
          | some args =>
            if env.submit_err then Except.error ConnectorError.orderFailed
            else
              let tx : String :=
                match env.response_tx_hash with
                | some tx => tx
                | none => "unknown"
              Except.ok (args,
                ⟨tx, symbol, OrderSide.BUY, OrderType.MARKET,
                  size, some current_price, OrderStatus.FILLED⟩, false)

/-- One element of `account_data['positions']` as consumed by
`get_open_positions` (lines 845-872); `initial_margin_fraction` is read with
`.get(..., '100.00')`, so `none` models an absent field. -/
structure PositionPayload where
  position : ℚ
  symbol : String
  sign : ℤ
  initial_margin_fraction : Option ℚ
  avg_entry_price : ℚ
  unrealized_pnl : ℚ
  deriving DecidableEq, Repr

/-- Loop body of `get_open_positions` for one nonzero-size entry
(lines 850-872): side from the `sign` field (`BUY` iff `sign == 1`),
`abs(position_size)`, the live market price from `get_current_price`, and
leverage `100.0 / margin_fraction` when the margin fraction is positive,
else `1.0`. -/
def position_from_payload (priceOf : String → ℚ) (q : PositionPayload) : Position :=
  let side := if q.sign = 1 then OrderSide.BUY else OrderSide.SELL
  let margin_fraction := q.initial_margin_fraction.getD 100
  let leverage := if margin_fraction > 0 then 100 / margin_fraction else 1
  ⟨q.symbol, side, |q.position|, q.avg_entry_price, priceOf q.symbol,
    q.unrealized_pnl, leverage⟩

/-- The position-building loop of `get_open_positions` (lines 845-874): walk
the payload list, keep only entries with `position_size != 0`, and append
the derived `Position` for each. -/
def get_open_positions (priceOf : String → ℚ) :
    List PositionPayload → List Position
  | [] => []
  | q :: rest =>
    if q.position ≠ 0 then
      position_from_payload priceOf q :: get_open_positions priceOf rest
    else get_open_positions priceOf rest

/-- Empty market cache: the connector state before any metadata is fetched. -/
def emptyCache : MarketCache :=
  ⟨fun _ => none, fun _ => none, fun _ => none, fun _ => none⟩

/-- An orderbook-meta body that carries `size_decimals` but is missing
`price_decimals` and `min_base_amount`. -/
def partialMetaResponse : MetaResponse := ⟨some 4, none, none⟩

/-- Sample transaction hash. -/
def txh : String := "0xabc"

/-- Sample symbol. -/
def ethSym : String := "ETH"

/-- Settlement data with an actual price of 2500 and an actual size of 1. -/
def settledFill : FillData := ⟨some 2500, 1⟩

/-- Operation environment: trading enabled, mid price 100, submission
succeeds, a transaction hash is obtainable, and the fill tracker would
report `settledFill`. -/
def goodEnvTx : OpEnv :=
  ⟨true, ⟨none, none, none⟩, some 100, false, some txh, FillOutcome.filled settledFill⟩

/-- Like `goodEnvTx` but with no obtainable transaction hash. -/
def envNoTx : OpEnv :=
  ⟨true, ⟨none, none, none⟩, some 100, false, none, FillOutcome.filled settledFill⟩

/-- A poll response stream that always answers HTTP 200 with `status = 4`. -/
def respStatus4 : ℕ → PollResponse :=
  fun _ => PollResponse.http 200 (some 4) EventInfoParse.parse_failure

/-- A poll response stream that always answers HTTP 404. -/
def respNotFound : ℕ → PollResponse :=
  fun _ => PollResponse.http 404 none EventInfoParse.parse_failure

/-- A flat price oracle. -/
def flatPrice : String → ℚ := fun _ => 100

/-- Sample short position payload: size 2, `sign = -1`,
`initial_margin_fraction = 25`. -/
def samplePayload : PositionPayload := ⟨2, ethSym, -1, some 25, 2000, 5⟩

lemma resolve_slippage_of_ne_zero (s : Option ℚ) (h : s ≠ some 0) :
    resolve_slippage s = s.getD 0.01 := by
  match s with
  | none => rfl
  | some x =>
    have hx : x ≠ 0 := fun hx0 => h (by rw [hx0])
    simp [resolve_slippage, hx]

lemma resolve_slippage_zero : resolve_slippage (some 0) = resolve_slippage none := by
  norm_num [resolve_slippage]

lemma place_market_buy_args_zero (st : MarketCache) (mid : ℕ) (size p : ℚ) :
    place_market_buy_args st mid size (some 0) p =
      place_market_buy_args st mid size none p := by
  simp only [place_market_buy_args, resolve_slippage_zero]

lemma place_market_sell_args_zero (st : MarketCache) (mid : ℕ) (size p : ℚ) :
    place_market_sell_args st mid size (some 0) p =
      place_market_sell_args st mid size none p := by
  simp only [place_market_sell_args, resolve_slippage_zero]

lemma close_buy_args_zero (st : MarketCache) (mid : ℕ) (size p : ℚ) :
    close_buy_args st mid size (some 0) p = close_buy_args st mid size none p := by
  simp only [close_buy_args, resolve_slippage_zero]

lemma close_sell_args_zero (st : MarketCache) (mid : ℕ) (size p : ℚ) :
    close_sell_args st mid size (some 0) p = close_sell_args st mid size none p := by
  simp only [close_sell_args, resolve_slippage_zero]

lemma wait_go_of_all_none (resp : ℕ → PollResponse) (tx : String) (expected T δ : ℚ)
    (h : ∀ i : ℕ, (i : ℚ) * δ < T → pollStep (resp i) expected = none) :
    ∀ fuel i, wait_go resp tx expected T δ fuel i = FillOutcome.timedOut tx T := by
  intro fuel
  induction fuel with
  | zero => intro i; rfl
  | succ n ih =>
    intro i
    by_cases hc : (i : ℚ) * δ < T
    · simp [wait_go, hc, h i hc, ih]
    · simp [wait_go, hc]

lemma wait_go_congr (resp resp' : ℕ → PollResponse) (tx : String) (expected T δ : ℚ)
    (h : ∀ i : ℕ, (i : ℚ) * δ < T → resp i = resp' i) :
    ∀ fuel i, wait_go resp tx expected T δ fuel i = wait_go resp' tx expected T δ fuel i := by
  intro fuel
  induction fuel with
  | zero => intro i; rfl
  | succ n ih =>
    intro i
    by_cases hc : (i : ℚ) * δ < T
    · rw [wait_go, wait_go, if_pos hc, if_pos hc, h i hc]
      cases hp : pollStep (resp' i) expected <;> simp [hp, ih]
    · rw [wait_go, wait_go, if_neg hc, if_neg hc]

/-- C1: for every market whose size (resp. price) decimals `d` are cached,
encoding a nonnegative decimal value `v` yields `⌊v * 10 ^ d⌋` — truncation,
never rounding; in particular encoding size 1.23456 with 4 size decimals
yields 12345, not 12346. -/
theorem C1_encoding_truncates :
    (∀ (st : MarketCache) (market_id d : ℕ) (v : ℚ),
        st.size_decimals market_id = some d → 0 ≤ v →
        convert_size_to_lighter_format st v market_id = some ⌊v * 10 ^ d⌋) ∧
    (∀ (st : MarketCache) (market_id d : ℕ) (v : ℚ),
        st.price_decimals market_id = some d → 0 ≤ v →
        convert_price_to_lighter_format st v market_id = some ⌊v * 10 ^ d⌋) ∧
    convert_size_to_lighter_format exampleCache (1.23456 : ℚ) 0 = some 12345 ∧
    convert_size_to_lighter_format exampleCache (1.23456 : ℚ) 0 ≠ some 12346 := by
  refine ⟨?_, ?_, ?_, ?_⟩
  · intro st market_id d v h hv
    have hnn : (0 : ℚ) ≤ v * 10 ^ d := by positivity
    rw [convert_size_to_lighter_format, h, Option.map_some']
    simp only [pyInt, if_pos hnn]
  · intro st market_id d v h hv
    have hnn : (0 : ℚ) ≤ v * 10 ^ d := by positivity
    rw [convert_price_to_lighter_format, h, Option.map_some']
    simp only [pyInt, if_pos hnn]
  · norm_num [convert_size_to_lighter_format, exampleCache, pyInt]
  · norm_num [convert_size_to_lighter_format, exampleCache, pyInt]

theorem C1_encoding_truncates_witness :
    convert_size_to_lighter_format exampleCache (5 / 2) 0 = some ⌊(5 / 2 : ℚ) * 10 ^ 4⌋ :=
  C1_encoding_truncates.1 exampleCache 0 4 (5 / 2) rfl (by norm_num)

/-- C2 counterexample: with an explicitly supplied slippage of 0, the buy
pipeline encodes a worst price of 101 (10100 at 2 price decimals), not the
`price * (1 + slippage) = 100` (encoded 10000) the claim's formula demands:
`slippage or 0.01` coerces the supplied 0 to the default. -/
theorem C2_counterexample :
    place_market_buy_args exampleCache 0 1 (some 0) 100 =
      some ⟨0, 10000, 10100, false, false⟩ ∧
    pyInt ((100 : ℚ) * (1 + 0) * 10 ^ 2) = 10000 ∧
    (10100 : ℤ) ≠ 10000 := by
  refine ⟨?_, ?_, ?_⟩
  · norm_num [place_market_buy_args, exampleCache, resolve_slippage, pyInt,
      convert_size_to_lighter_format, convert_price_to_lighter_format]
  · norm_num [pyInt]
  · norm_num

/-- C2 (amended): for every market order whose slippage is unspecified or
supplied nonzero, the encoded worst price is `price * (1 + slippage)` for the
buy-side operations and `price * (1 - slippage)` for the sell-side ones,
with unspecified slippage defaulting to 0.01; price 100 at slippage 0.01
gives worst price 101 for a buy and 99 for a sell.  (A supplied slippage of
exactly 0 is coerced to the 0.01 default; see the counterexample and C10.) -/
theorem C2_worst_price :
    (∀ (st : MarketCache) (mid sd pd : ℕ) (size p : ℚ) (s : Option ℚ),
        st.size_decimals mid = some sd → st.price_decimals mid = some pd →
        s ≠ some 0 →
        place_market_buy_args st mid size s p =
          some ⟨mid, pyInt (size * 10 ^ sd),
            pyInt (p * (1 + s.getD 0.01) * 10 ^ pd), false, false⟩ ∧
        place_market_sell_args st mid size s p =
          some ⟨mid, pyInt (size * 10 ^ sd),
            pyInt (p * (1 - s.getD 0.01) * 10 ^ pd), true, false⟩ ∧
        close_buy_args st mid size s p =
          some ⟨mid, pyInt (size * 10 ^ sd),
            pyInt (p * (1 - s.getD 0.01) * 10 ^ pd), true, true⟩ ∧
        close_sell_args st mid size s p =
          some ⟨mid, pyInt (size * 10 ^ sd),
            pyInt (p * (1 + s.getD 0.01) * 10 ^ pd), false, true⟩) ∧
    (100 : ℚ) * (1 + resolve_slippage (some 0.01)) = 101 ∧
    (100 : ℚ) * (1 - resolve_slippage (some 0.01)) = 99 ∧
    resolve_slippage none = 0.01 := by
  refine ⟨?_, ?_, ?_, rfl⟩
  · intro st mid sd pd size p s hsd hpd hs
    refine ⟨?_, ?_, ?_, ?_⟩ <;>
      simp [place_market_buy_args, place_market_sell_args, close_buy_args, close_sell_args,
        resolve_slippage_of_ne_zero s hs, convert_size_to_lighter_format,
        convert_price_to_lighter_format, hsd, hpd]
  · norm_num [resolve_slippage]
  · norm_num [resolve_slippage]

theorem C2_worst_price_witness :
    place_market_buy_args exampleCache 0 1 (some 0.02) 100 =
      some ⟨0, pyInt (1 * 10 ^ 4),
        pyInt (100 * (1 + (some (0.02 : ℚ)).getD 0.01) * 10 ^ 2), false, false⟩ ∧
    place_market_sell_args exampleCache 0 1 (some 0.02) 100 =
      some ⟨0, pyInt (1 * 10 ^ 4),
        pyInt (100 * (1 - (some (0.02 : ℚ)).getD 0.01) * 10 ^ 2), true, false⟩ :=
  ⟨(C2_worst_price.1 exampleCache 0 4 2 1 100 (some 0.02) rfl rfl
      (by simp; norm_num)).1,
    (C2_worst_price.1 exampleCache 0 4 2 1 100 (some 0.02) rfl rfl (by simp; norm_num)).2.1⟩

/-- C10: for each of the four order operations, an explicitly supplied
slippage of 0.0 produces exactly the same result as an unspecified slippage —
the `or`-default makes a zero-slippage bound unreachable through the public
interface. -/
theorem C10_zero_slippage_uses_default :
    ∀ (cache : MarketCache) (symbol : String) (size : ℚ) (env : OpEnv),
      place_market_buy_order cache symbol size (some 0) env =
        place_market_buy_order cache symbol size none env ∧
      place_market_sell_order cache symbol size (some 0) env =
        place_market_sell_order cache symbol size none env ∧
      close_buy_position cache symbol size (some 0) env =
        close_buy_position cache symbol size none env ∧
      close_sell_position cache symbol size (some 0) env =
        close_sell_position cache symbol size none env := by
  intro cache symbol size env
  refine ⟨?_, ?_, ?_, ?_⟩
  · simp only [place_market_buy_order, place_market_buy_args_zero]
  · simp only [place_market_sell_order, place_market_sell_args_zero]
  · simp only [close_buy_position, close_buy_args_zero]
  · simp only [close_sell_position, close_sell_args_zero]

/-- C3 (code evaluated at the failing input): a poll answering HTTP 200 with
transaction status 4 (beyond the settled code 3) does NOT terminate the fill
wait — the `raise` of line 799 is caught by the function's own generic
`except` (line 816), so the iteration merely continues polling, and with
every poll answering status 4 the wait ends in the timeout exception instead
of `TransactionFailed(status)`.  The claim describes the code's evident
intent; the code's own handler swallows it. -/
theorem C3_status_beyond_settled_times_out :
    pollStep (PollResponse.http 200 (some 4) EventInfoParse.parse_failure) 1 = none ∧
    wait_for_fill respStatus4 txh 1 3 1 = FillOutcome.timedOut txh 3 := by
  constructor
  · rfl
  · norm_num [wait_for_fill, wait_go, pollStep, respStatus4]

/-- C4 counterexample: ensuring market 7 on an empty cache against a remote
response that has `size_decimals = 4` but is missing `price_decimals` fails
with the metadata error, yet leaves `size_decimals[7] = 4` cached with the
other two fields absent — a partial record, contradicting the claim's
all-or-nothing guarantee. -/
theorem C4_counterexample :
    (ensure_market_data emptyCache 7 partialMetaResponse).2 = some ConnectorError.metadataError ∧
    (ensure_market_data emptyCache 7 partialMetaResponse).1.size_decimals 7 = some 4 ∧
    (ensure_market_data emptyCache 7 partialMetaResponse).1.price_decimals 7 = none ∧
    (ensure_market_data emptyCache 7 partialMetaResponse).1.min_base_amounts 7 = none := by
  refine ⟨rfl, ?_, rfl, rfl⟩
  simp [ensure_market_data, cachedAll, emptyCache, partialMetaResponse]

/-- C4 (amended): when the three per-market fields are not all cached and
the remote response is missing any of `size_decimals`, `price_decimals`,
`min_base_amount`, the ensure operation fails with the metadata error, but
the fields preceding the first missing one in the fixed write order
(size, then price, then min) are cached anyway, so a partial record can
remain; only when `size_decimals` itself is missing is the cache untouched,
and only a complete response populates all three and succeeds. -/
theorem C4_ensure_prefix_writes :
    ∀ (st : MarketCache) (mid : ℕ) (resp : MetaResponse), cachedAll st mid = false →
      ((resp.size_decimals = none ∨ resp.price_decimals = none ∨
          resp.min_base_amount = none) →
        (ensure_market_data st mid resp).2 = some ConnectorError.metadataError) ∧
      (resp.size_decimals = none → (ensure_market_data st mid resp).1 = st) ∧
      (∀ sd, resp.size_decimals = some sd → resp.price_decimals = none →
        (ensure_market_data st mid resp).1.size_decimals mid = some sd ∧
        (ensure_market_data st mid resp).1.price_decimals mid = st.price_decimals mid ∧
        (ensure_market_data st mid resp).1.min_base_amounts mid = st.min_base_amounts mid) ∧
      (∀ sd pd, resp.size_decimals = some sd → resp.price_decimals = some pd →
        resp.min_base_amount = none →
        (ensure_market_data st mid resp).1.size_decimals mid = some sd ∧
        (ensure_market_data st mid resp).1.price_decimals mid = some pd ∧
        (ensure_market_data st mid resp).1.min_base_amounts mid = st.min_base_amounts mid) ∧
      (∀ sd pd mb, resp.size_decimals = some sd → resp.price_decimals = some pd →
        resp.min_base_amount = some mb →
        (ensure_market_data st mid resp).2 = none ∧
        (ensure_market_data st mid resp).1.size_decimals mid = some sd ∧
        (ensure_market_data st mid resp).1.price_decimals mid = some pd ∧
        (ensure_market_data st mid resp).1.min_base_amounts mid = some mb) := by
  intro st mid resp hc
  obtain ⟨rs, rp, rm⟩ := resp
  refine ⟨?_, ?_, ?_, ?_, ?_⟩
  · intro h
    cases rs <;> cases rp <;> cases rm <;>
      simp_all [ensure_market_data]
  · intro h; subst h; simp [ensure_market_data, hc]
  · rintro sd rfl rfl
    cases rm <;> simp [ensure_market_data, hc, Function.update_same]
  · rintro sd pd rfl rfl rfl
    simp [ensure_market_data, hc, Function.update_same]
  · rintro sd pd mb rfl rfl rfl
    simp [ensure_market_data, hc, Function.update_same]

theorem C4_ensure_prefix_writes_witness :
    (ensure_market_data emptyCache 7 partialMetaResponse).1.size_decimals 7 = some 4 ∧
    (ensure_market_data emptyCache 7 partialMetaResponse).1.price_decimals 7 =
      emptyCache.price_decimals 7 ∧
    (ensure_market_data emptyCache 7 partialMetaResponse).1.min_base_amounts 7 =
      emptyCache.min_base_amounts 7 :=
  (C4_ensure_prefix_writes emptyCache 7 partialMetaResponse rfl).2.2.1 4 rfl rfl

/-- C5 counterexample: with a successful submission, an obtainable
transaction hash and a fill tracker that would report an actual price of
2500, `place_market_sell_order` still returns without invoking the fill
tracker (third component `false`) and records the pre-trade estimate price
100 — refuting the claim that all four operations hand off to the fill
tracker. -/
theorem C5_counterexample :
    goodEnvTx.response_tx_hash = some txh ∧
    goodEnvTx.fill = FillOutcome.filled ⟨some 2500, 1⟩ ∧
    place_market_sell_order exampleCache ethSym 1 none goodEnvTx =
      Except.ok (⟨0, 10000, 9900, true, false⟩,
        ⟨txh, ethSym, OrderSide.SELL, OrderType.MARKET, 1, some 100, OrderStatus.FILLED⟩,
        false) := by
  refine ⟨rfl, rfl, ?_⟩
  norm_num [place_market_sell_order, goodEnvTx, exampleCache, ensure_market_data, cachedAll,
    place_market_sell_args, resolve_slippage, convert_size_to_lighter_format,
    convert_price_to_lighter_format, pyInt]

/-- C5 (amended): `place_market_buy_order` and `close_buy_position` hand off
to the fill tracker when a transaction hash is obtainable and build the
`Order` from the fill's actual price/size, while `place_market_sell_order`
and `close_sell_position` never invoke the fill tracker and always record
the submission-time size and price estimate; across the four operations the
submitted arguments differ in the side flag (`is_ask`) and the reduce-only
flag exactly as place-buy (false, false), place-sell (true, false),
close-buy (true, true), close-sell (false, true). -/
theorem C5_pipeline :
    (∀ (cache : MarketCache) (symbol : String) (size : ℚ) (s : Option ℚ) (env : OpEnv)
        (mid : ℕ) (cache1 : MarketCache) (p : ℚ) (args : MarketOrderArgs)
        (tx : String) (d : FillData),
      env.trading_enabled = true →
      cache.symbol_to_market_id symbol = some mid →
      ensure_market_data cache mid env.meta_response = (cache1, none) →
      env.price_result = some p →
      place_market_buy_args cache1 mid size s p = some args →
      env.submit_err = false →
      env.response_tx_hash = some tx →
      env.fill = FillOutcome.filled d →
      place_market_buy_order cache symbol size s env =
        Except.ok (args, ⟨tx, symbol, OrderSide.BUY, OrderType.MARKET,
          d.actual_size, d.actual_price, OrderStatus.FILLED⟩, true)) ∧
    (∀ (cache : MarketCache) (symbol : String) (size : ℚ) (s : Option ℚ) (env : OpEnv)
        (mid : ℕ) (cache1 : MarketCache) (p : ℚ) (args : MarketOrderArgs)
        (tx : String) (d : FillData),
      env.trading_enabled = true →
      cache.symbol_to_market_id symbol = some mid →
      ensure_market_data cache mid env.meta_response = (cache1, none) →
      env.price_result = some p →
      close_buy_args cache1 mid size s p = some args →
      env.submit_err = false →
      env.response_tx_hash = some tx →
      env.fill = FillOutcome.filled d →
      close_buy_position cache symbol size s env =
        Except.ok (args, ⟨tx, symbol, OrderSide.SELL, OrderType.MARKET,
          d.actual_size, d.actual_price, OrderStatus.FILLED⟩, true)) ∧
    (∀ (cache : MarketCache) (symbol : String) (size : ℚ) (s : Option ℚ) (env : OpEnv)
        (mid : ℕ) (cache1 : MarketCache) (p : ℚ) (args : MarketOrderArgs)
        (tx : String) (d : FillData),
      env.trading_enabled = true →
      cache.symbol_to_market_id symbol = some mid →
      ensure_market_data cache mid env.meta_response = (cache1, none) →
      env.price_result = some p →
      place_market_sell_args cache1 mid size s p = some args →
      env.submit_err = false →
      env.response_tx_hash = some tx →
      env.fill = FillOutcome.filled d →
      place_market_sell_order cache symbol size s env =
        Except.ok (args, ⟨tx, symbol, OrderSide.SELL, OrderType.MARKET,
          size, some p, OrderStatus.FILLED⟩, false)) ∧
    (∀ (cache : MarketCache) (symbol : String) (size : ℚ) (s : Option ℚ) (env : OpEnv)
        (mid : ℕ) (cache1 : MarketCache) (p : ℚ) (args : MarketOrderArgs)
        (tx : String) (d : FillData),
      env.trading_enabled = true →
      cache.symbol_to_market_id symbol = some mid →
      ensure_market_data cache mid env.meta_response = (cache1, none) →
      env.price_result = some p →
      close_sell_args cache1 mid size s p = some args →
      env.submit_err = false →
      env.response_tx_hash = some tx →
      env.fill = FillOutcome.filled d →
      close_sell_position cache symbol size s env =
        Except.ok (args, ⟨tx, symbol, OrderSide.BUY, OrderType.MARKET,
          size, some p, OrderStatus.FILLED⟩, false)) ∧
    (∀ (st : MarketCache) (mid : ℕ) (size p : ℚ) (s : Option ℚ) (a : MarketOrderArgs),
      place_market_buy_args st mid size s p = some a →
        a.is_ask = false ∧ a.reduce_only = false) ∧
    (∀ (st : MarketCache) (mid : ℕ) (size p : ℚ) (s : Option ℚ) (a : MarketOrderArgs),
      place_market_sell_args st mid size s p = some a →
        a.is_ask = true ∧ a.reduce_only = false) ∧
    (∀ (st : MarketCache) (mid : ℕ) (size p : ℚ) (s : Option ℚ) (a : MarketOrderArgs),
      close_buy_args st mid size s p = some a →
        a.is_ask = true ∧ a.reduce_only = true) ∧
    (∀ (st : MarketCache) (mid : ℕ) (size p : ℚ) (s : Option ℚ) (a : MarketOrderArgs),
      close_sell_args st mid size s p = some a →
        a.is_ask = false ∧ a.reduce_only = true) := by
  refine ⟨?_, ?_, ?_, ?_, ?_, ?_, ?_, ?_⟩
  · intro cache symbol size s env mid cache1 p args tx d h1 h2 h3 h4 h5 h6 h7 h8
    simp [place_market_buy_order, h1, h2, h3, h4, h5, h6, h7, h8]
  · intro cache symbol size s env mid cache1 p args tx d h1 h2 h3 h4 h5 h6 h7 h8
    simp [close_buy_position, h1, h2, h3, h4, h5, h6, h7, h8]
  · intro cache symbol size s env mid cache1 p args tx d h1 h2 h3 h4 h5 h6 h7 h8
    simp [place_market_sell_order, h1, h2, h3, h4, h5, h6, h7, h8]
  · intro cache symbol size s env mid cache1 p args tx d h1 h2 h3 h4 h5 h6 h7 h8
    simp [close_sell_position, h1, h2, h3, h4, h5, h6, h7, h8]
  · intro st mid size p s a h
    simp only [place_market_buy_args] at h
    split at h <;> simp_all
    subst h
    exact ⟨rfl, rfl⟩
  · intro st mid size p s a h
    simp only [place_market_sell_args] at h
    split at h <;> simp_all
    subst h
    exact ⟨rfl, rfl⟩
  · intro st mid size p s a h
    simp only [close_buy_args] at h
    split at h <;> simp_all
    subst h
    exact ⟨rfl, rfl⟩
  · intro st mid size p s a h
    simp only [close_sell_args] at h
    split at h <;> simp_all
    subst h
    exact ⟨rfl, rfl⟩

theorem C5_pipeline_witness :
    place_market_sell_order exampleCache ethSym 1 none goodEnvTx =
      Except.ok (⟨0, 10000, 9900, true, false⟩,
        ⟨txh, ethSym, OrderSide.SELL, OrderType.MARKET, 1, some 100, OrderStatus.FILLED⟩,
        false) :=
  C5_pipeline.2.2.1 exampleCache ethSym 1 none goodEnvTx 0 exampleCache 100
    ⟨0, 10000, 9900, true, false⟩ txh settledFill rfl rfl rfl rfl
    (by norm_num [place_market_sell_args, exampleCache, resolve_slippage, pyInt,
      convert_size_to_lighter_format, convert_price_to_lighter_format])
    rfl rfl rfl

/-- C6 counterexample: the degraded no-transaction-hash order and a
confirmed settled fill both come back with status `FILLED` — the degraded
record carries no low-confidence/estimated marking; only its sentinel id
string distinguishes it. -/
theorem C6_counterexample :
    place_market_buy_order exampleCache ethSym 1 none envNoTx =
      Except.ok (⟨0, 10000, 10100, false, false⟩,
        ⟨"unknown", ethSym, OrderSide.BUY, OrderType.MARKET, 1, some 100,
          OrderStatus.FILLED⟩, false) ∧
    place_market_buy_order exampleCache ethSym 1 none goodEnvTx =
      Except.ok (⟨0, 10000, 10100, false, false⟩,
        ⟨txh, ethSym, OrderSide.BUY, OrderType.MARKET, 1, some 2500,
          OrderStatus.FILLED⟩, true) ∧
    (place_market_buy_order exampleCache ethSym 1 none envNoTx).toOption.map
        (fun r => r.2.1.status) =
      (place_market_buy_order exampleCache ethSym 1 none goodEnvTx).toOption.map
        (fun r => r.2.1.status) := by
  have h1 : place_market_buy_order exampleCache ethSym 1 none envNoTx =
      Except.ok (⟨0, 10000, 10100, false, false⟩,
        ⟨"unknown", ethSym, OrderSide.BUY, OrderType.MARKET, 1, some 100,
          OrderStatus.FILLED⟩, false) := by
    norm_num [place_market_buy_order, envNoTx, exampleCache, ensure_market_data, cachedAll,
      place_market_buy_args, resolve_slippage, convert_size_to_lighter_format,
      convert_price_to_lighter_format, pyInt]
  have h2 : place_market_buy_order exampleCache ethSym 1 none goodEnvTx =
      Except.ok (⟨0, 10000, 10100, false, false⟩,
        ⟨txh, ethSym, OrderSide.BUY, OrderType.MARKET, 1, some 2500,
          OrderStatus.FILLED⟩, true) := by
    norm_num [place_market_buy_order, goodEnvTx, settledFill, exampleCache, ensure_market_data,
      cachedAll, place_market_buy_args, resolve_slippage, convert_size_to_lighter_format,
      convert_price_to_lighter_format, pyInt]
  exact ⟨h1, h2, by rw [h1, h2]; rfl⟩

/-- C6 (amended): when an order is submitted successfully but no transaction
identifier is obtainable, the returned `Order` records the submission-time
price and size estimate with the sentinel id string and status `FILLED` —
the same status as a confirmed fill, so the sentinel id is the only field a
caller can use to distinguish it. -/
theorem C6_no_tx_estimate :
    ∀ (cache : MarketCache) (symbol : String) (size : ℚ) (s : Option ℚ) (env : OpEnv)
      (mid : ℕ) (cache1 : MarketCache) (p : ℚ) (args : MarketOrderArgs),
      env.trading_enabled = true →
      cache.symbol_to_market_id symbol = some mid →
      ensure_market_data cache mid env.meta_response = (cache1, none) →
      env.price_result = some p →
      place_market_buy_args cache1 mid size s p = some args →
      env.submit_err = false →
      env.response_tx_hash = none →
      place_market_buy_order cache symbol size s env =
        Except.ok (args, ⟨"unknown", symbol, OrderSide.BUY, OrderType.MARKET,
          size, some p, OrderStatus.FILLED⟩, false) := by
  intro cache symbol size s env mid cache1 p args h1 h2 h3 h4 h5 h6 h7
  simp [place_market_buy_order, h1, h2, h3, h4, h5, h6, h7]

theorem C6_no_tx_estimate_witness :
    place_market_buy_order exampleCache ethSym 1 none envNoTx =
      Except.ok (⟨0, 10000, 10100, false, false⟩,
        ⟨"unknown", ethSym, OrderSide.BUY, OrderType.MARKET, 1, some 100,
          OrderStatus.FILLED⟩, false) :=
  C6_no_tx_estimate exampleCache ethSym 1 none envNoTx 0 exampleCache 100
    ⟨0, 10000, 10100, false, false⟩ rfl rfl rfl rfl
    (by norm_num [place_market_buy_args, exampleCache, resolve_slippage, pyInt,
      convert_size_to_lighter_format, convert_price_to_lighter_format])
    rfl rfl

/-- C7: on the settled status the fill tracker extracts the actual price as
the payload's price field divided by 100 and the actual size as the size
field divided by 10000 (price-cents 250000 and scaled-size 10000 yield
2500 and 1); when the settlement payload fails to parse it still reports a
settled fill with an absent actual price and the caller-supplied expected
size. -/
theorem C7_settlement_extraction :
    (∀ (p s expected : ℚ), 0 < p → 0 < s →
      pollStep (PollResponse.http 200 (some 3) (EventInfoParse.parsed p s)) expected =
        some ⟨some (p / 100), s / 10000⟩) ∧
    (∀ expected : ℚ,
      pollStep (PollResponse.http 200 (some 3) EventInfoParse.parse_failure) expected =
        some ⟨none, expected⟩) ∧
    (∀ expected : ℚ,
      pollStep (PollResponse.http 200 (some 3) (EventInfoParse.parsed 250000 10000))
        expected = some ⟨some 2500, 1⟩) := by
  refine ⟨?_, ?_, ?_⟩
  · intro p s expected hp hs
    have hp' : (0 : ℚ) < p / 100 := by positivity
    have hs' : (0 : ℚ) < s / 10000 := by positivity
    simp [pollStep, hp', hs']
  · intro expected; rfl
  · intro expected
    norm_num [pollStep]

theorem C7_settlement_extraction_witness :
    pollStep (PollResponse.http 200 (some 3) (EventInfoParse.parsed 250000 10000)) 7 =
      some ⟨some (250000 / 100), 10000 / 10000⟩ :=
  C7_settlement_extraction.1 250000 10000 7 (by norm_num) (by norm_num)

/-- C8: a not-found (HTTP 404) response and a transport error both leave the
poll in the continue-polling state; if no poll scheduled before the timeout
elapses returns a terminal settlement, the wait fails with the timeout
outcome carrying the transaction id; and the wait's result depends only on
the polls scheduled strictly before the timeout — it never polls past it. -/
theorem C8_polling_bounded :
    (∀ (tx_status : Option ℤ) (ev : EventInfoParse) (expected : ℚ),
      pollStep (PollResponse.http 404 tx_status ev) expected = none) ∧
    (∀ expected : ℚ, pollStep PollResponse.transport_error expected = none) ∧
    (∀ (resp : ℕ → PollResponse) (tx : String) (expected T δ : ℚ),
      (∀ i : ℕ, (i : ℚ) * δ < T → pollStep (resp i) expected = none) →
      wait_for_fill resp tx expected T δ = FillOutcome.timedOut tx T) ∧
    (∀ (resp resp' : ℕ → PollResponse) (tx : String) (expected T δ : ℚ),
      (∀ i : ℕ, (i : ℚ) * δ < T → resp i = resp' i) →
      wait_for_fill resp tx expected T δ = wait_for_fill resp' tx expected T δ) := by
  refine ⟨?_, ?_, ?_, ?_⟩
  · intro tx_status ev expected
    cases tx_status <;> simp [pollStep]
  · intro expected; rfl
  · intro resp tx expected T δ h
    exact wait_go_of_all_none resp tx expected T δ h _ 0
  · intro resp resp' tx expected T δ h
    exact wait_go_congr resp resp' tx expected T δ h _ 0

theorem C8_polling_bounded_witness :
    wait_for_fill respNotFound txh 1 3 1 = FillOutcome.timedOut txh 3 :=
  C8_polling_bounded.2.2.1 respNotFound txh 1 3 1 (fun _ _ => rfl)

/-- C9: the position view drops zero-size entries, derives side `BUY` from
`sign = 1` and `SELL` from `sign = -1`, and derives leverage as
`100 / margin_fraction` for a positive margin fraction and 1 otherwise;
margin fraction 25 gives leverage 4. -/
theorem C9_position_view :
    (∀ (priceOf : String → ℚ) (q : PositionPayload) (rest : List PositionPayload),
      q.position = 0 →
      get_open_positions priceOf (q :: rest) = get_open_positions priceOf rest) ∧
    (∀ (priceOf : String → ℚ) (q : PositionPayload) (rest : List PositionPayload),
      q.position ≠ 0 →
      get_open_positions priceOf (q :: rest) =
        position_from_payload priceOf q :: get_open_positions priceOf rest) ∧
    (∀ (priceOf : String → ℚ) (q : PositionPayload),
      q.sign = 1 → (position_from_payload priceOf q).side = OrderSide.BUY) ∧
    (∀ (priceOf : String → ℚ) (q : PositionPayload),
      q.sign = -1 → (position_from_payload priceOf q).side = OrderSide.SELL) ∧
    (∀ (priceOf : String → ℚ) (q : PositionPayload) (mf : ℚ),
      q.initial_margin_fraction = some mf → 0 < mf →
      (position_from_payload priceOf q).leverage = 100 / mf) ∧
    (∀ (priceOf : String → ℚ) (q : PositionPayload) (mf : ℚ),
      q.initial_margin_fraction = some mf → mf ≤ 0 →
      (position_from_payload priceOf q).leverage = 1) ∧
    (∀ (priceOf : String → ℚ) (q : PositionPayload),
      q.initial_margin_fraction = some 25 →
      (position_from_payload priceOf q).leverage = 4) := by
  refine ⟨?_, ?_, ?_, ?_, ?_, ?_, ?_⟩
  · intro priceOf q rest h; simp [get_open_positions, h]
  · intro priceOf q rest h; simp [get_open_positions, h]
  · intro priceOf q h; simp [position_from_payload, h]
  · intro priceOf q h; simp [position_from_payload, h]
  · intro priceOf q mf h h0; simp [position_from_payload, h, h0]
  · intro priceOf q mf h h0; simp [position_from_payload, h, not_lt.mpr h0]
  · intro priceOf q h
    norm_num [position_from_payload, h]

theorem C9_position_view_witness :
    (position_from_payload flatPrice samplePayload).side = OrderSide.SELL ∧
    (position_from_payload flatPrice samplePayload).leverage = 4 :=
  ⟨C9_position_view.2.2.2.1 flatPrice samplePayload rfl,
    C9_position_view.2.2.2.2.2.2 flatPrice samplePayload rfl⟩
